import Mathlib

/-!
ParaView fragments: the OpenVR control panel, the data time-step behaviour, the IndeX
irregular-volume subset interface and the render view proxy.

A shallow embedding of `Plugins/OpenVR/pqOpenVRControls.cxx` together with the
library operations it calls (`QString::number`, `std::stoi`, the `QComboBox`
item list), followed by the properties established about it.

Conventions.
* A `QString` is a list of characters; `int` is a mathematical integer together
  with the bounds `INT_MIN`, `INT_MAX` wherever the C++ type matters.
* The widget is a record of the fields the member functions touch; every call
  that leaves the widget (helper calls, parser calls, pipeline model queries) is
  appended to the record's `effects`, oldest first.
* `float`/`double` values are kept abstract: the type `F` of such values, the
  parser `std::stof` and the rendering `QString::number(double)` are parameters.
-/

namespace ParaView

/-! ## Library layer: strings and numbers -/

/-- A Qt string, as the list of its characters. -/
abbrev QString := List Char

/-- Smallest value of the C++ type `int` (32 bit). -/
def INT_MIN : Int := -2147483648

/-- Largest value of the C++ type `int` (32 bit). -/
def INT_MAX : Int := 2147483647

/-- Membership in the C++ type `int`. -/
def isInt32 (v : Int) : Prop := INT_MIN ≤ v ∧ v ≤ INT_MAX

instance (v : Int) : Decidable (isInt32 v) := by
  unfold isInt32; exact inferInstance

/-- The character of a decimal digit `d < 10`. -/
def digitChar (d : Nat) : Char := Char.ofNat (48 + d)

/-- Decimal digits of `n`, most significant first, pushed in front of `acc`.
The first argument bounds the number of digits. -/
def digitsFuel : Nat → Nat → List Char → List Char
  | 0, _, acc => acc
  | fuel + 1, n, acc =>
    if n < 10 then digitChar n :: acc
    else digitsFuel fuel (n / 10) (digitChar (n % 10) :: acc)

/-- Decimal rendering of a natural number (`"0"` for zero, no leading zero otherwise). -/
def natDigits (n : Nat) : List Char := digitsFuel (n + 1) n []

/-- Embedding of `QString::number(int n)` in base 10: a minus sign for negative values followed by
the decimal digits of the magnitude. -/
def QString.number (n : Int) : QString :=
  if n < 0 then '-' :: natDigits n.natAbs else natDigits n.natAbs

/-- Embedding of `text.toLocal8Bit().constData()`: the C string handed to the parser. It ends at the
first NUL character; the characters the parsers look at (digits, signs, white space)
are ASCII and keep their value in every local 8-bit encoding. -/
def toCString (text : QString) : List Char := text.takeWhile (fun c => c != Char.ofNat 0)

/-- C `isspace` in the "C" locale: space, `\t`, `\n`, `\v`, `\f`, `\r`. -/
def isspace (c : Char) : Bool := c.toNat == 32 || (9 ≤ c.toNat && c.toNat ≤ 13)

/-- C `isdigit`. -/
def isdigit (c : Char) : Bool := 48 ≤ c.toNat && c.toNat ≤ 57

/-- Value of a run of decimal digits read left to right, starting from `acc`. -/
def digitsValue (acc : Nat) (ds : List Char) : Nat :=
  ds.foldl (fun a c => 10 * a + (c.toNat - 48)) acc

/-- The sign that `strtol` reads after the white space, and the rest of the input. -/
def readSign : List Char → Bool × List Char
  | '-' :: rest => (true, rest)
  | '+' :: rest => (false, rest)
  | s => (false, s)

/-- The scan of `strtol(str, &end, 10)`, without the clamping to `long`: leading white
space is skipped, an optional sign is read, then the longest run of digits; `none` when
there is no digit to convert. What follows the digits is ignored. -/
def strtolScan (s : List Char) : Option Int :=
  let (neg, rest) := readSign (s.dropWhile isspace)
  let ds := rest.takeWhile isdigit
  if ds.isEmpty then none
  else
    let m : Int := (digitsValue 0 ds : Nat)
    some (if neg then -m else m)

/-- The two exceptions of the `std::sto*` family. -/
inductive StoError
  | invalid_argument
  | out_of_range
deriving DecidableEq, Repr

instance instDecidableEqExcept {ε α : Type} [DecidableEq ε] [DecidableEq α] :
    DecidableEq (Except ε α)
  | .ok a, .ok b => if h : a = b then isTrue (by rw [h]) else isFalse (by intro e; cases e; exact h rfl)
  | .error a, .error b =>
    if h : a = b then isTrue (by rw [h]) else isFalse (by intro e; cases e; exact h rfl)
  | .ok _, .error _ => isFalse (by intro e; cases e)
  | .error _, .ok _ => isFalse (by intro e; cases e)

/-- Embedding of `std::stoi(str)` (base 10): `std::invalid_argument` when no conversion can be
performed, `std::out_of_range` when the value does not fit `int`. -/
def stoi (s : List Char) : Except StoError Int :=
  match strtolScan s with
  | none => .error .invalid_argument
  | some v => if isInt32 v then .ok v else .error .out_of_range

/-! ## Library layer: `QComboBox` -/

/-- The part of a `QComboBox` the panel uses: the item texts and the current index
(`-1` when there is no current item). -/
structure QComboBox where
  items : List QString
  currentIndex : Int
deriving DecidableEq, Repr

namespace QComboBox

/-- Embedding of `QComboBox::count()`. -/
def count (c : QComboBox) : Int := c.items.length

/-- Embedding of `QComboBox::clear()`: all items are removed and no item is current. -/
def clear (_c : QComboBox) : QComboBox := { items := [], currentIndex := -1 }

/-- Embedding of `QComboBox::addItems(texts)`: the texts are appended in order. When the box was
empty and had no current item, the first inserted item becomes current. -/
def addItems (c : QComboBox) (texts : List QString) : QComboBox :=
  { items := c.items ++ texts
    currentIndex :=
      if c.items.isEmpty && !texts.isEmpty && c.currentIndex < 0 then 0 else c.currentIndex }

/-- Index of the first text equal to `text` among `ts`, counting from `i`; `-1` if none. -/
def findTextFrom (text : QString) : List QString → Int → Int
  | [], _ => -1
  | t :: ts, i => if t = text then i else findTextFrom text ts (i + 1)

/-- Embedding of `QComboBox::findText(text)` with the default flags `Qt::MatchExactly |
Qt::MatchCaseSensitive`: index of the first item whose text is `text`, else `-1`. -/
def findText (c : QComboBox) (text : QString) : Int := findTextFrom text c.items 0

/-- Embedding of `QComboBox::setCurrentIndex(index)`: an index outside `0 .. count-1` leaves the box
without current item. -/
def setCurrentIndex (c : QComboBox) (index : Int) : QComboBox :=
  { c with currentIndex := if 0 ≤ index ∧ index < c.count then index else -1 }

end QComboBox

/-! ## Library layer: check states, model indices, pipeline items -/

namespace Qt

/-- Embedding of `Qt::Unchecked`. -/
def Unchecked : Int := 0

/-- Embedding of `Qt::PartiallyChecked`. -/
def PartiallyChecked : Int := 1

/-- Embedding of `Qt::Checked`. -/
def Checked : Int := 2

end Qt

/-- A `QModelIndex`: whether it is valid, and which entry it designates. -/
structure QModelIndex where
  isValid : Bool
  key : Nat
deriving DecidableEq, Repr

/-- A `pqServerManagerModelItem`, identified by `id`. `isPipelineSource` tells whether its
class is `pqPipelineSource` or derives from it, which is what
`qobject_cast<pqPipelineSource*>` tests. -/
structure pqServerManagerModelItem where
  id : Nat
  isPipelineSource : Bool
deriving DecidableEq, Repr

/-- Embedding of `qobject_cast<pqPipelineSource*>(item)`: the item itself when it is a pipeline source,
null for a null pointer and for an item of another class. -/
def qobject_cast_pqPipelineSource :
    Option pqServerManagerModelItem → Option pqServerManagerModelItem
  | none => none
  | some item => if item.isPipelineSource then some item else none

/-- The `pqPipelineModel`: `getItemFor(index)` yields the item at the index, or null. -/
structure pqPipelineModel where
  getItemFor : QModelIndex → Option pqServerManagerModelItem

/-- The `pqPipelineBrowserWidget` of the panel: the current index of its selection model,
the pipeline model behind an index of the browser (the indices of the selection model
belong to the browser's own model, so there is one), and the translation of a browser
index into an index of that pipeline model. -/
structure pqPipelineBrowserWidget where
  currentIndex : QModelIndex
  getPipelineModel : QModelIndex → pqPipelineModel
  pipelineModelIndex : QModelIndex → QModelIndex

/-! ## The helper and the effects of the panel -/

/-- A call received by the `vtkPVOpenVRHelper` (or by the style or renderer it owns).
Pointer arguments are `none` for `nullptr`. -/
inductive HelperCall (F : Type)
  | Quit
  | ResetPositions
  | TakeMeasurement
  | RemoveMeasurement
  | SetDrawControls (v : Bool)
  | SetShowNavigationPanel (v : Bool)
  | SetHoverPick (v : Bool)
  | SetRightTriggerMode (mode : List Char)
  | AddACropPlane (origin normal : Option Nat)
  | AddAThickCrop (transform : Option Nat)
  | RemoveAllCropPlanes
  | SetCropSnapping (v : Int)
  | SetShowFloor (v : Bool)
  | SetScaleFactor (v : F)
  | SetMotionFactor (v : F)
  | LoadCameraPose (v : Int)
  | SaveCameraPose (v : Int)
deriving DecidableEq, Repr

/-- What the panel does to its surroundings, in the order it happens. -/
inductive Effect (F : Type)
  | helper (call : HelperCall F)
  | stoi (arg : List Char)
  | stof (arg : List Char)
  | getPipelineModel (index : QModelIndex)
  | pipelineModelIndex (index : QModelIndex)
  | getItemFor (index : QModelIndex)
deriving DecidableEq, Repr

/-! ## The panel `pqOpenVRControls` -/

/-- The widgets `setupUi` creates from the form `pqOpenVRControls.ui`. Their initial
content is fixed by the form and is a parameter here. -/
structure Ui where
  rightTrigger : QComboBox
  scaleFactorCombo : QComboBox
  motionFactorCombo : QComboBox
  loadCameraCombo : QComboBox
  saveCameraCombo : QComboBox
  pipelineBrowser : pqPipelineBrowserWidget

/-- The members of `pqOpenVRControls` the code reads or writes, and the effects so far. -/
structure pqOpenVRControls (F : Type) where
  NoForward : Bool
  Internals : Ui
  effects : List (Effect F)

/-- Outcome of a slot: the panel afterwards and the exception that left the slot, if any. -/
structure SlotResult (F : Type) where
  panel : pqOpenVRControls F
  thrown : Option StoError

namespace pqOpenVRControls

variable {F D : Type}

/-- Append an effect. -/
def emit (self : pqOpenVRControls F) (e : Effect F) : pqOpenVRControls F :=
  { self with effects := self.effects ++ [e] }

/-- Call an operation of the helper. -/
def callHelper (self : pqOpenVRControls F) (c : HelperCall F) : pqOpenVRControls F :=
  self.emit (.helper c)

/-- The effects of `after` that were not yet in `before`. -/
def newEffects (before after : pqOpenVRControls F) : List (Effect F) :=
  after.effects.drop before.effects.length

/-- The helper calls among a list of effects, in order. -/
def helperCalls : List (Effect F) → List (HelperCall F)
  | [] => []
  | .helper c :: es => c :: helperCalls es
  | _ :: es => helperCalls es

/-- Embedding of `pqOpenVRControls::constructor(val)`: `NoForward` is cleared and the form is set up.
The helper `val` is the receiver of the helper calls recorded in `effects`; the
connections made here are the slots below. Window title, window flags and the active view
of the pipeline browser are not part of the record. -/
def constructor (ui : Ui) (self : pqOpenVRControls F) : pqOpenVRControls F :=
  { self with NoForward := false, Internals := ui }

/-! ### Slots connected by the constructor -/

/-- Slot of `controllerLabels`, signal `stateChanged(int)`. -/
def controllerLabels_stateChanged (state : Int) (self : pqOpenVRControls F) :
    pqOpenVRControls F :=
  self.callHelper (.SetDrawControls (state == Qt.Checked))

/-- Slot of `navigationPanel`, signal `stateChanged(int)`. -/
def navigationPanel_stateChanged (state : Int) (self : pqOpenVRControls F) :
    pqOpenVRControls F :=
  self.callHelper (.SetShowNavigationPanel (state == Qt.Checked))

/-- Slot of `interactiveRay`, signal `stateChanged(int)`. -/
def interactiveRay_stateChanged (state : Int) (self : pqOpenVRControls F) :
    pqOpenVRControls F :=
  self.callHelper (.SetHoverPick (state == Qt.Checked))

/-- Slot of `showFloorCheckbox`, signal `stateChanged(int)`. -/
def showFloorCheckbox_stateChanged (state : Int) (self : pqOpenVRControls F) :
    pqOpenVRControls F :=
  self.callHelper (.SetShowFloor (state == Qt.Checked))

/-- Slot of `cropSnapping`, signal `stateChanged(int)`: the state is passed on as it is. -/
def cropSnapping_stateChanged (state : Int) (self : pqOpenVRControls F) :
    pqOpenVRControls F :=
  self.callHelper (.SetCropSnapping state)

/-- Slot of `rightTrigger`, signal `currentTextChanged`. -/
def rightTrigger_currentTextChanged (text : QString) (self : pqOpenVRControls F) :
    pqOpenVRControls F :=
  self.callHelper (.SetRightTriggerMode (toCString text))

/-- Slot of `exitButton`, signal `clicked`. -/
def exitButton_clicked (self : pqOpenVRControls F) : pqOpenVRControls F :=
  self.callHelper .Quit

/-- Slot of `measurement`, signal `clicked`. -/
def measurement_clicked (self : pqOpenVRControls F) : pqOpenVRControls F :=
  self.callHelper .TakeMeasurement

/-- Slot of `removeMeasurement`, signal `clicked`. -/
def removeMeasurement_clicked (self : pqOpenVRControls F) : pqOpenVRControls F :=
  self.callHelper .RemoveMeasurement

/-- Slot of `addCropButton`, signal `clicked`: both pointer arguments are bound to null. -/
def addCropButton_clicked (self : pqOpenVRControls F) : pqOpenVRControls F :=
  self.callHelper (.AddACropPlane none none)

/-- Slot of `addThickCropButton`, signal `clicked`: the pointer argument is bound to null. -/
def addThickCropButton_clicked (self : pqOpenVRControls F) : pqOpenVRControls F :=
  self.callHelper (.AddAThickCrop none)

/-- Slot of `removeCropsButton`, signal `clicked`. -/
def removeCropsButton_clicked (self : pqOpenVRControls F) : pqOpenVRControls F :=
  self.callHelper .RemoveAllCropPlanes

/-- Slot of `scaleFactorCombo`, signal `activated(QString)`. -/
def scaleFactorCombo_activated (stof : List Char → Except StoError F) (text : QString)
    (self : pqOpenVRControls F) : SlotResult F :=
  if !self.NoForward && text.length != 0 then
    let parsing := self.emit (.stof (toCString text))
    match stof (toCString text) with
    | .ok v => ⟨parsing.callHelper (.SetScaleFactor v), none⟩
    | .error e => ⟨parsing, some e⟩
  else ⟨self, none⟩

/-- Slot of `motionFactorCombo`, signal `activated(QString)`. -/
def motionFactorCombo_activated (stof : List Char → Except StoError F) (text : QString)
    (self : pqOpenVRControls F) : SlotResult F :=
  if !self.NoForward && text.length != 0 then
    let parsing := self.emit (.stof (toCString text))
    match stof (toCString text) with
    | .ok v => ⟨parsing.callHelper (.SetMotionFactor v), none⟩
    | .error e => ⟨parsing, some e⟩
  else ⟨self, none⟩

/-- Slot of `loadCameraCombo`, signal `activated(QString)`. -/
def loadCameraCombo_activated (text : QString) (self : pqOpenVRControls F) : SlotResult F :=
  if !self.NoForward && text.length != 0 then
    let parsing := self.emit (.stoi (toCString text))
    match stoi (toCString text) with
    | .ok v => ⟨parsing.callHelper (.LoadCameraPose v), none⟩
    | .error e => ⟨parsing, some e⟩
  else ⟨self, none⟩

/-- Slot of `saveCameraCombo`, signal `activated(QString)`. -/
def saveCameraCombo_activated (text : QString) (self : pqOpenVRControls F) : SlotResult F :=
  if text.length != 0 then
    let parsing := self.emit (.stoi (toCString text))
    match stoi (toCString text) with
    | .ok v => ⟨parsing.callHelper (.SaveCameraPose v), none⟩
    | .error e => ⟨parsing, some e⟩
  else ⟨self, none⟩

/-! ### Member functions -/

/-- Embedding of `pqOpenVRControls::resetPositions()`. -/
def resetPositions (self : pqOpenVRControls F) : pqOpenVRControls F :=
  self.callHelper .ResetPositions

/-- Embedding of `pqOpenVRControls::SetRightTriggerMode(text)`, that is
`rightTrigger->setCurrentText(text.c_str())` on a combo box that is not editable: when an
item carries the text it becomes current, and if that changes the current index the box
emits `currentTextChanged`, whose slot runs at once. -/
def SetRightTriggerMode (text : List Char) (self : pqOpenVRControls F) : pqOpenVRControls F :=
  let combo := self.Internals.rightTrigger
  let i := combo.findText (toCString text)
  if i > -1 ∧ i ≠ combo.currentIndex then
    rightTrigger_currentTextChanged (toCString text)
      { self with Internals := { self.Internals with rightTrigger := combo.setCurrentIndex i } }
  else self

/-- Embedding of `pqOpenVRControls::GetSelectedPipelineSource()`: the returned pointer (`none` for
null) and the panel with the queries made. -/
def GetSelectedPipelineSource (self : pqOpenVRControls F) :
    Option pqServerManagerModelItem × pqOpenVRControls F :=
  let selindex := self.Internals.pipelineBrowser.currentIndex
  if !selindex.isValid then (none, self)
  else
    let model := self.Internals.pipelineBrowser.getPipelineModel selindex
    let s1 := self.emit (.getPipelineModel selindex)
    let index := self.Internals.pipelineBrowser.pipelineModelIndex selindex
    let s2 := s1.emit (.pipelineModelIndex selindex)
    let smModelItem := model.getItemFor index
    let s3 := s2.emit (.getItemFor index)
    (qobject_cast_pqPipelineSource smModelItem, s3)

/-- Embedding of `pqOpenVRControls::SetAvailablePositions(vals)`. -/
def SetAvailablePositions (vals : List Int) (self : pqOpenVRControls F) :
    pqOpenVRControls F :=
  let cleared := self.Internals.loadCameraCombo.clear
  let list := vals.foldl (fun (l : List QString) s => l ++ [QString.number s]) []
  { self with Internals := { self.Internals with loadCameraCombo := cleared.addItems list } }

/-- The statements of `SetCurrentPosition(val)` that write a member, in order. -/
def SetCurrentPosition_body (val : Int) : List (pqOpenVRControls F → pqOpenVRControls F) :=
  [ fun self => { self with NoForward := true },
    fun self =>
      let idx := self.Internals.loadCameraCombo.findText (QString.number val)
      { self with Internals := { self.Internals with
          loadCameraCombo := self.Internals.loadCameraCombo.setCurrentIndex idx } },
    fun self => { self with NoForward := false } ]

/-- The statements of `SetCurrentScaleFactor(val)` that write a member, in order. -/
def SetCurrentScaleFactor_body (numberD : D → QString) (val : D) :
    List (pqOpenVRControls F → pqOpenVRControls F) :=
  [ fun self => { self with NoForward := true },
    fun self =>
      let idx := self.Internals.scaleFactorCombo.findText (numberD val)
      { self with Internals := { self.Internals with
          scaleFactorCombo := self.Internals.scaleFactorCombo.setCurrentIndex idx } },
    fun self => { self with NoForward := false } ]

/-- The statements of `SetCurrentMotionFactor(val)` that write a member, in order. -/
def SetCurrentMotionFactor_body (numberD : D → QString) (val : D) :
    List (pqOpenVRControls F → pqOpenVRControls F) :=
  [ fun self => { self with NoForward := true },
    fun self =>
      let idx := self.Internals.motionFactorCombo.findText (numberD val)
      { self with Internals := { self.Internals with
          motionFactorCombo := self.Internals.motionFactorCombo.setCurrentIndex idx } },
    fun self => { self with NoForward := false } ]

/-- The states a statement list passes through from `self`: one per statement, the last
one being the state at return. -/
def statesThrough {S : Type} : List (S → S) → S → List S
  | [], _ => []
  | f :: fs, self => f self :: statesThrough fs (f self)

/-- Run a statement list to its end. -/
def runBody {S : Type} (body : List (S → S)) (self : S) : S :=
  body.foldl (fun s f => f s) self

/-- Embedding of `pqOpenVRControls::SetCurrentPosition(val)`. -/
def SetCurrentPosition (val : Int) (self : pqOpenVRControls F) : pqOpenVRControls F :=
  runBody (SetCurrentPosition_body val) self

/-- Embedding of `pqOpenVRControls::SetCurrentScaleFactor(val)`; `numberD` is `QString::number(double)`. -/
def SetCurrentScaleFactor (numberD : D → QString) (val : D) (self : pqOpenVRControls F) :
    pqOpenVRControls F :=
  runBody (SetCurrentScaleFactor_body numberD val) self

/-- Embedding of `pqOpenVRControls::SetCurrentMotionFactor(val)`; `numberD` is `QString::number(double)`. -/
def SetCurrentMotionFactor (numberD : D → QString) (val : D) (self : pqOpenVRControls F) :
    pqOpenVRControls F :=
  runBody (SetCurrentMotionFactor_body numberD val) self

/-- The calls a panel can receive: its member functions and the signals connected to
its slots. -/
inductive Op (D : Type)
  | constructor (ui : Ui)
  | resetPositions
  | SetRightTriggerMode (text : List Char)
  | GetSelectedPipelineSource
  | SetAvailablePositions (vals : List Int)
  | SetCurrentPosition (val : Int)
  | SetCurrentScaleFactor (val : D)
  | SetCurrentMotionFactor (val : D)
  | exitButton_clicked
  | resetPositionsButton_clicked
  | measurement_clicked
  | removeMeasurement_clicked
  | controllerLabels_stateChanged (state : Int)
  | navigationPanel_stateChanged (state : Int)
  | interactiveRay_stateChanged (state : Int)
  | rightTrigger_currentTextChanged (text : QString)
  | addCropButton_clicked
  | addThickCropButton_clicked
  | removeCropsButton_clicked
  | cropSnapping_stateChanged (state : Int)
  | showFloorCheckbox_stateChanged (state : Int)
  | scaleFactorCombo_activated (text : QString)
  | motionFactorCombo_activated (text : QString)
  | loadCameraCombo_activated (text : QString)
  | saveCameraCombo_activated (text : QString)

/-- The call is one of `SetCurrentPosition`, `SetCurrentScaleFactor`,
`SetCurrentMotionFactor`. -/
def Op.isSetter : Op D → Bool
  | .SetCurrentPosition _ => true
  | .SetCurrentScaleFactor _ => true
  | .SetCurrentMotionFactor _ => true
  | _ => false

/-- The call is `constructor`. -/
def Op.isConstructor : Op D → Bool
  | .constructor _ => true
  | _ => false

/-- The statements of a call that write a member, in order. The three setters have
several; every other call acts on the members in one step. -/
def Op.body (stof : List Char → Except StoError F) (numberD : D → QString) :
    Op D → List (pqOpenVRControls F → pqOpenVRControls F)
  | .constructor ui => [pqOpenVRControls.constructor ui]
  | .resetPositions => [pqOpenVRControls.resetPositions]
  | .SetRightTriggerMode text => [pqOpenVRControls.SetRightTriggerMode text]
  | .GetSelectedPipelineSource => [fun self => self.GetSelectedPipelineSource.2]
  | .SetAvailablePositions vals => [pqOpenVRControls.SetAvailablePositions vals]
  | .SetCurrentPosition val => SetCurrentPosition_body val
  | .SetCurrentScaleFactor val => SetCurrentScaleFactor_body numberD val
  | .SetCurrentMotionFactor val => SetCurrentMotionFactor_body numberD val
  | .exitButton_clicked => [pqOpenVRControls.exitButton_clicked]
  | .resetPositionsButton_clicked => [pqOpenVRControls.resetPositions]
  | .measurement_clicked => [pqOpenVRControls.measurement_clicked]
  | .removeMeasurement_clicked => [pqOpenVRControls.removeMeasurement_clicked]
  | .controllerLabels_stateChanged state => [pqOpenVRControls.controllerLabels_stateChanged state]
  | .navigationPanel_stateChanged state => [pqOpenVRControls.navigationPanel_stateChanged state]
  | .interactiveRay_stateChanged state => [pqOpenVRControls.interactiveRay_stateChanged state]
  | .rightTrigger_currentTextChanged text => [pqOpenVRControls.rightTrigger_currentTextChanged text]
  | .addCropButton_clicked => [pqOpenVRControls.addCropButton_clicked]
  | .addThickCropButton_clicked => [pqOpenVRControls.addThickCropButton_clicked]
  | .removeCropsButton_clicked => [pqOpenVRControls.removeCropsButton_clicked]
  | .cropSnapping_stateChanged state => [pqOpenVRControls.cropSnapping_stateChanged state]
  | .showFloorCheckbox_stateChanged state => [pqOpenVRControls.showFloorCheckbox_stateChanged state]
  | .scaleFactorCombo_activated text =>
    [fun self => (pqOpenVRControls.scaleFactorCombo_activated stof text self).panel]
  | .motionFactorCombo_activated text =>
    [fun self => (pqOpenVRControls.motionFactorCombo_activated stof text self).panel]
  | .loadCameraCombo_activated text =>
    [fun self => (pqOpenVRControls.loadCameraCombo_activated text self).panel]
  | .saveCameraCombo_activated text =>
    [fun self => (pqOpenVRControls.saveCameraCombo_activated text self).panel]

/-- The panel after a sequence of calls, each run to its end. -/
def run (stof : List Char → Except StoError F) (numberD : D → QString) (ops : List (Op D))
    (self : pqOpenVRControls F) : pqOpenVRControls F :=
  ops.foldl (fun p op => runBody (op.body stof numberD) p) self

end pqOpenVRControls

/-! ## The data time-step behaviour -/

namespace pqDataTimeStepBehavior

/-- Modelled from the spec: the body of `pqDataTimeStepBehavior::onReaderCreated`, whose
implementation file `pqDataTimeStepBehavior.cxx` is not among the sources (the header
with the class documentation is). Following that documentation, a reader with more than
one timestep brings the application time up to the time of its last timestep when the
application time is behind it; in every other case the time is left alone. `timesteps`
are the timestep values of the reader in order; times live in a linear order `T`. The
result is the application time afterwards. -/
def onReaderCreated {T : Type} [LinearOrder T] (timesteps : List T) (applicationTime : T) : T :=
  if 1 < timesteps.length then
    match timesteps.getLast? with
    | some last => if applicationTime < last then last else applicationTime
    | none => applicationTime
  else applicationTime

end pqDataTimeStepBehavior

/-! ## The irregular volume subset of NVIDIA IndeX -/

namespace IIrregular_volume_subset

/-- Embedding of `IIrregular_volume_subset::Mesh_parameters`. The `mi::Float32` edge length is a value
of a type `R` that has a zero; nothing is computed with it. -/
structure Mesh_parameters (R : Type) where
  nb_vertices : Nat
  nb_face_vtx_indices : Nat
  nb_faces : Nat
  nb_cell_face_indices : Nat
  nb_cells : Nat
  global_max_edge_length : R
deriving DecidableEq, Repr

/-- Embedding of `IIrregular_volume_subset::Mesh_storage`: the five array pointers, as addresses
(`0` is the null pointer). -/
structure Mesh_storage where
  vertices : Nat
  face_vtx_indices : Nat
  faces : Nat
  cell_face_indices : Nat
  cells : Nat
deriving DecidableEq, Repr

/-- Modelled from the spec: the state behind an `IIrregular_volume_subset`. The interface
is purely virtual and its implementation belongs to the IndeX library, which is not among
the sources; the state follows the documentation of the interface: the parameters and the
storage that the getters report, and the mesh storages generated by this instance that
are valid at present. -/
structure Instance (R : Type) where
  mesh_parameters : Mesh_parameters R
  mesh_storage : Mesh_storage
  valid_storages : List Mesh_storage
deriving DecidableEq, Repr

variable {R : Type} [Zero R]

/-- Modelled from the spec: the parameters of an empty irregular volume mesh
("all values 0" in the documentation of `get_mesh_parameters`). -/
def empty_parameters : Mesh_parameters R :=
  { nb_vertices := 0, nb_face_vtx_indices := 0, nb_faces := 0, nb_cell_face_indices := 0,
    nb_cells := 0, global_max_edge_length := 0 }

/-- Modelled from the spec: the storage holding "invalid pointers to the particular arrays
(i.e. value 0)" of the documentation of `get_mesh`. -/
def null_storage : Mesh_storage :=
  { vertices := 0, face_vtx_indices := 0, faces := 0, cell_face_indices := 0, cells := 0 }

/-- Modelled from the spec: an instance on which `generate_mesh_storage` has not been
called. No implementation is among the sources. -/
def create : Instance R :=
  { mesh_parameters := empty_parameters, mesh_storage := null_storage, valid_storages := [] }

/-- Modelled from the spec: `generate_mesh_storage(mesh_params, mesh_storage)`, whose
implementation is not among the sources. `allocated` is what the library could generate
for this call: a storage, or nothing. With a storage the call returns true, hands the
storage out, invalidates the storages generated before and keeps the passed parameters;
with nothing it returns false, and the instance is taken to stay as it was (the
documentation says only "false otherwise"). The result is the returned flag, the storage
written to the out-parameter, and the instance afterwards. -/
def generate_mesh_storage (mesh_params : Mesh_parameters R) (allocated : Option Mesh_storage)
    (self : Instance R) : Bool × Option Mesh_storage × Instance R :=
  match allocated with
  | some storage =>
    (true, some storage,
      { mesh_parameters := mesh_params, mesh_storage := storage, valid_storages := [storage] })
  | none => (false, none, self)

/-- Modelled from the spec: `get_mesh_parameters()`, "the irregular volume mesh parameters
of the currently valid mesh storage". No implementation is among the sources. -/
def get_mesh_parameters (self : Instance R) : Mesh_parameters R := self.mesh_parameters

/-- Modelled from the spec: `get_mesh()`, "a copy of the currently valid irregular volume
mesh storage". No implementation is among the sources. -/
def get_mesh (self : Instance R) : Mesh_storage := self.mesh_storage

/-- The calls of the interface that concern the mesh. -/
inductive Call (R : Type)
  | generate_mesh_storage (mesh_params : Mesh_parameters R) (allocated : Option Mesh_storage)
  | get_mesh_parameters
  | get_mesh
deriving DecidableEq, Repr

/-- The call is a `generate_mesh_storage`. -/
def Call.isGenerate : Call R → Bool
  | .generate_mesh_storage _ _ => true
  | _ => false

/-- The instance after one call (the getters are `const`). -/
def step (self : Instance R) : Call R → Instance R
  | .generate_mesh_storage mesh_params allocated =>
    (IIrregular_volume_subset.generate_mesh_storage mesh_params allocated self).2.2
  | .get_mesh_parameters => self
  | .get_mesh => self

/-- The instance after a sequence of calls. -/
def runCalls (calls : List (Call R)) (self : Instance R) : Instance R :=
  calls.foldl step self

/-- The parameters and the storage of the last call of `generate_mesh_storage` in `calls`
that returned true, if there is one. -/
def lastSuccessful : List (Call R) → Option (Mesh_parameters R × Mesh_storage)
  | [] => none
  | c :: cs =>
    match lastSuccessful cs with
    | some r => some r
    | none =>
      match c with
      | .generate_mesh_storage mesh_params (some storage) => some (mesh_params, storage)
      | _ => none

end IIrregular_volume_subset

/-! ## The render view proxy -/

namespace vtkPVRenderViewProxy

/-- The access sections of a C++ class body. -/
inductive Access
  | publicSection
  | protectedSection
  | privateSection
deriving DecidableEq, Repr

/-- The member functions that the body of `class vtkPVRenderViewProxy` declares itself
(the type functions brought in by `vtkTypeRevisionMacro` are not listed). -/
inductive Member
  | EventuallyRender
  | GetRenderWindow
  | Render
  | defaultConstructor
  | destructor
  | copyConstructor
  | assignment
deriving DecidableEq, Repr

/-- The access section in which a member is declared. -/
def Member.access : Member → Access
  | .EventuallyRender => .publicSection
  | .GetRenderWindow => .publicSection
  | .Render => .publicSection
  | .defaultConstructor => .protectedSection
  | .destructor => .protectedSection
  | .copyConstructor => .privateSection
  | .assignment => .privateSection

/-- The member is declared `virtual ... = 0`, to be defined by a subclass. -/
def Member.isPureVirtual : Member → Bool
  | .EventuallyRender => true
  | .GetRenderWindow => true
  | .Render => true
  | _ => false

/-- The members in the order of their declaration. -/
def members : List Member :=
  [.EventuallyRender, .GetRenderWindow, .Render, .defaultConstructor, .destructor,
   .copyConstructor, .assignment]

/-- The operations of the public interface that a subclass forwards to an actual
`vtkPVRenderView`: the public pure virtual members. -/
def forwardedOperations : List Member :=
  members.filter (fun m => m.access == .publicSection && m.isPureVirtual)

end vtkPVRenderViewProxy

/-! ## Properties stated once for several slots -/

/-- The forwarding discipline of an `activated(QString)` slot `slot` that parses with
`parse` (recorded as the effect `parseEffect`) and calls the helper operation `call`:
* a helper call is made exactly when `NoForward` is false, the text is not empty and the
  parser converts the text; the call is then `call v` for the parsed value `v`, made once;
* when `NoForward` is true or the text is empty, the slot returns normally and leaves the
  panel as it was, so that neither the parser nor the helper is called;
* when the parser throws, the exception leaves the slot and the helper is not called. -/
def GuardedForwarding {F α : Type} (slot : QString → pqOpenVRControls F → SlotResult F)
    (parse : List Char → Except StoError α) (parseEffect : List Char → Effect F)
    (call : α → HelperCall F) : Prop :=
  ∀ (text : QString) (p : pqOpenVRControls F),
    (pqOpenVRControls.helperCalls (pqOpenVRControls.newEffects p (slot text p).panel) ≠ []
        ↔ (p.NoForward = false ∧ text ≠ [] ∧ ∃ v, parse (toCString text) = .ok v))
    ∧ (∀ v, p.NoForward = false → text ≠ [] → parse (toCString text) = .ok v →
        pqOpenVRControls.newEffects p (slot text p).panel
            = [parseEffect (toCString text), .helper (call v)]
          ∧ (slot text p).thrown = none)
    ∧ (p.NoForward = true ∨ text = [] → slot text p = ⟨p, none⟩)
    ∧ (∀ e, p.NoForward = false → text ≠ [] → parse (toCString text) = .error e →
        pqOpenVRControls.newEffects p (slot text p).panel = [parseEffect (toCString text)]
          ∧ (slot text p).thrown = some e)

/-! ## Sample data -/

/-- A pipeline browser whose current index is valid and maps to a pipeline source. -/
def sampleBrowser : pqPipelineBrowserWidget :=
  { currentIndex := { isValid := true, key := 3 }
    getPipelineModel := fun _ =>
      { getItemFor := fun i =>
          if i.key = 4 then some { id := 7, isPipelineSource := true }
          else if i.key = 5 then some { id := 8, isPipelineSource := false }
          else none }
    pipelineModelIndex := fun i => { isValid := i.isValid, key := i.key + 1 } }

/-- A form with a few entries in each combo box. -/
def sampleUi : Ui :=
  { rightTrigger := { items := ["Pick".toList, "Grab".toList], currentIndex := 0 }
    scaleFactorCombo := { items := ["1".toList, "10".toList], currentIndex := 0 }
    motionFactorCombo := { items := ["1".toList, "2".toList], currentIndex := 0 }
    loadCameraCombo := { items := ["9".toList], currentIndex := 0 }
    saveCameraCombo := { items := ["1".toList, "2".toList], currentIndex := -1 }
    pipelineBrowser := sampleBrowser }

/-- A panel right after construction, with integer-valued factors. -/
def samplePanel : pqOpenVRControls Int :=
  { NoForward := false, Internals := sampleUi, effects := [] }

/-! ## Facts about the library layer -/

theorem digitChar_toNat (d : Nat) (h : d < 10) : (digitChar d).toNat = 48 + d := by
  unfold digitChar
  interval_cases d <;> rfl

theorem isdigit_digitChar (d : Nat) (h : d < 10) : isdigit (digitChar d) = true := by
  unfold isdigit
  rw [digitChar_toNat d h]
  simp
  omega

theorem isdigit_digitsFuel (fuel n : Nat) (acc : List Char)
    (hacc : ∀ c ∈ acc, isdigit c = true) : ∀ c ∈ digitsFuel fuel n acc, isdigit c = true := by
  induction fuel generalizing n acc with
  | zero => simpa [digitsFuel] using hacc
  | succ fuel ih =>
    unfold digitsFuel
    split
    · intro c hc
      rcases List.mem_cons.mp hc with h | h
      · rw [h]; exact isdigit_digitChar n (by assumption)
      · exact hacc c h
    · apply ih
      intro c hc
      rcases List.mem_cons.mp hc with h | h
      · rw [h]; exact isdigit_digitChar _ (Nat.mod_lt _ (by decide))
      · exact hacc c h

theorem digitsValue_digitsFuel (fuel n : Nat) (acc : List Char) (h : n < fuel) :
    digitsValue 0 (digitsFuel fuel n acc) = digitsValue n acc := by
  induction fuel generalizing n acc with
  | zero => omega
  | succ fuel ih =>
    unfold digitsFuel
    split
    · rename_i hn
      simp [digitsValue, digitChar_toNat n hn]
    · rename_i hn
      rw [ih (n / 10) _ (by omega)]
      simp only [digitsValue, List.foldl_cons]
      rw [digitChar_toNat _ (Nat.mod_lt _ (by decide))]
      congr 1
      omega

theorem digitsFuel_ne_nil (fuel n : Nat) (acc : List Char) (h : n < fuel) :
    digitsFuel fuel n acc ≠ [] := by
  induction fuel generalizing n acc with
  | zero => omega
  | succ fuel ih =>
    unfold digitsFuel
    split
    · simp
    · rename_i hn
      exact ih _ _ (by omega)

theorem isdigit_natDigits (n : Nat) : ∀ c ∈ natDigits n, isdigit c = true :=
  isdigit_digitsFuel _ _ _ (by simp)

theorem natDigits_ne_nil (n : Nat) : natDigits n ≠ [] :=
  digitsFuel_ne_nil _ _ _ (Nat.lt_succ_self n)

theorem digitsValue_natDigits (n : Nat) : digitsValue 0 (natDigits n) = n := by
  unfold natDigits
  rw [digitsValue_digitsFuel _ _ _ (by omega)]
  rfl

/-- A digit is neither white space, nor a sign, nor NUL. -/
theorem isdigit_facts (c : Char) (h : isdigit c = true) :
    isspace c = false ∧ c ≠ '-' ∧ c ≠ '+' ∧ (c != Char.ofNat 0) = true := by
  unfold isdigit at h
  simp only [Bool.and_eq_true, decide_eq_true_eq] at h
  refine ⟨?_, ?_, ?_, ?_⟩
  · unfold isspace
    simp
    omega
  · rintro rfl
    revert h; decide
  · rintro rfl
    revert h; decide
  · simp only [bne_iff_ne, ne_eq]
    rintro rfl
    revert h; decide

theorem takeWhile_eq_self_of_all {α : Type} (p : α → Bool) (l : List α)
    (h : ∀ c ∈ l, p c = true) : l.takeWhile p = l := by
  induction l with
  | nil => rfl
  | cons a l ih =>
    rw [List.takeWhile_cons, h a (List.mem_cons_self _ _)]
    simp only [if_true]
    rw [ih (fun c hc => h c (List.mem_cons_of_mem _ hc))]

theorem strtolScan_digits (ds : List Char) (hne : ds ≠ [])
    (hd : ∀ c ∈ ds, isdigit c = true) : strtolScan ds = some ((digitsValue 0 ds : Nat) : Int) := by
  obtain ⟨c, cs, rfl⟩ := List.exists_cons_of_ne_nil hne
  have hc := isdigit_facts c (hd c (List.mem_cons_self _ _))
  have hdrop : (c :: cs).dropWhile isspace = c :: cs := by
    rw [List.dropWhile_cons, hc.1]; rfl
  have hsign : readSign (c :: cs) = (false, c :: cs) := by
    unfold readSign
    split
    · rename_i h; cases h; exact absurd rfl hc.2.1
    · rename_i h; cases h; exact absurd rfl hc.2.2.1
    · rfl
  unfold strtolScan
  rw [hdrop, hsign]
  simp only [takeWhile_eq_self_of_all isdigit (c :: cs) hd]
  simp

theorem strtolScan_neg_digits (ds : List Char) (hne : ds ≠ [])
    (hd : ∀ c ∈ ds, isdigit c = true) :
    strtolScan ('-' :: ds) = some (-((digitsValue 0 ds : Nat) : Int)) := by
  have hdrop : ('-' :: ds).dropWhile isspace = '-' :: ds := by
    rw [List.dropWhile_cons]; rfl
  unfold strtolScan
  rw [hdrop]
  simp only [readSign, takeWhile_eq_self_of_all isdigit ds hd]
  cases ds with
  | nil => exact absurd rfl hne
  | cons c cs => simp

/-- The scan of `strtol` reads back what `QString::number` wrote, for every integer. -/
theorem strtolScan_number (v : Int) : strtolScan (QString.number v) = some v := by
  unfold QString.number
  split
  · rw [strtolScan_neg_digits _ (natDigits_ne_nil _) (isdigit_natDigits _),
      digitsValue_natDigits]
    congr 1
    omega
  · rename_i hv
    rw [strtolScan_digits _ (natDigits_ne_nil _) (isdigit_natDigits _),
      digitsValue_natDigits]
    congr 1
    omega

/-- Embedding of `QString::number` on integers is injective. -/
theorem number_injective (a b : Int) (h : QString.number a = QString.number b) : a = b := by
  have ha := strtolScan_number a
  rw [h, strtolScan_number b] at ha
  exact (Option.some.inj ha).symm

/-- The text `QString::number` writes has no NUL: it reaches the parser unchanged. -/
theorem toCString_number (v : Int) : toCString (QString.number v) = QString.number v := by
  unfold toCString
  apply takeWhile_eq_self_of_all
  intro c hc
  unfold QString.number at hc
  split at hc
  · rcases List.mem_cons.mp hc with h | h
    · rw [h]; decide
    · exact (isdigit_facts c (isdigit_natDigits _ c h)).2.2.2
  · exact (isdigit_facts c (isdigit_natDigits _ c hc)).2.2.2

/-! ## Facts about the panel's bookkeeping -/

namespace pqOpenVRControls

variable {F D : Type}

theorem newEffects_self (p : pqOpenVRControls F) : newEffects p p = [] := by
  simp [newEffects]

theorem newEffects_emit (p : pqOpenVRControls F) (e : Effect F) :
    newEffects p (p.emit e) = [e] := by
  simp [newEffects, emit]

theorem newEffects_emit_emit (p : pqOpenVRControls F) (a b : Effect F) :
    newEffects p ((p.emit a).emit b) = [a, b] := by
  simp [newEffects, emit]

theorem newEffects_emit_emit_emit (p : pqOpenVRControls F) (a b c : Effect F) :
    newEffects p (((p.emit a).emit b).emit c) = [a, b, c] := by
  simp [newEffects, emit]

theorem foldl_snoc_eq_map {α β : Type} (f : α → β) (l : List α) (acc : List β) :
    l.foldl (fun (r : List β) s => r ++ [f s]) acc = acc ++ l.map f := by
  induction l generalizing acc with
  | nil => simp
  | cons a l ih => simp [ih]

theorem findTextFrom_map_number (v : Int) (vals : List Int) (i : Int) :
    QComboBox.findTextFrom (QString.number v) (vals.map QString.number) i
      = if v ∈ vals then i + (vals.indexOf v : Nat) else -1 := by
  induction vals generalizing i with
  | nil => simp [QComboBox.findTextFrom]
  | cons a vals ih =>
    simp only [List.map_cons, QComboBox.findTextFrom]
    by_cases h : a = v
    · subst h
      simp
    · have hne : QString.number a ≠ QString.number v := fun e => h (number_injective _ _ e)
      have hva : ¬ v = a := fun e => h e.symm
      rw [if_neg hne, ih]
      simp only [List.mem_cons, hva, false_or]
      split
      · rw [List.indexOf_cons_ne _ h]
        push_cast
        ring
      · rfl

theorem loadCameraCombo_after_SetAvailablePositions (vals : List Int)
    (self : pqOpenVRControls F) :
    (self.SetAvailablePositions vals).Internals.loadCameraCombo
      = { items := vals.map QString.number, currentIndex := if vals = [] then -1 else 0 } := by
  simp only [SetAvailablePositions, foldl_snoc_eq_map, QComboBox.clear, QComboBox.addItems]
  cases vals <;> simp

/-! ## The load-camera combo box -/

/-- C1: after `SetAvailablePositions(vals)` the load-camera combo box holds exactly the
decimal renderings `QString::number` of the elements of `vals`, one entry per element in
the same order, duplicates kept, whatever it held before. -/
theorem SetAvailablePositions_entries (vals : List Int) (self : pqOpenVRControls F) :
    (self.SetAvailablePositions vals).Internals.loadCameraCombo.items
        = vals.map QString.number
      ∧ (self.SetAvailablePositions vals).Internals.loadCameraCombo.count = vals.length := by
  rw [loadCameraCombo_after_SetAvailablePositions]
  simp [QComboBox.count]

/-- C2: `SetCurrentPosition(v)` after `SetAvailablePositions(vals)` makes the index of the
first occurrence of `v` in `vals` the current index of the load-camera combo box, and
`-1` when `v` does not occur in `vals`. (`vals.indexOf v` is that first index: `v` stands
there and at no smaller index.) -/
theorem SetCurrentPosition_after_SetAvailablePositions (vals : List Int) (v : Int)
    (self : pqOpenVRControls F) :
    ((self.SetAvailablePositions vals).SetCurrentPosition v).Internals.loadCameraCombo.currentIndex
        = (if v ∈ vals then ((vals.indexOf v : Nat) : Int) else -1)
      ∧ (v ∈ vals → vals[vals.indexOf v]? = some v)
      ∧ (∀ j : Nat, j < vals.indexOf v → vals[j]? ≠ some v) := by
  refine ⟨?_, ?_, ?_⟩
  · simp only [SetCurrentPosition, runBody, SetCurrentPosition_body, List.foldl_cons,
      List.foldl_nil, loadCameraCombo_after_SetAvailablePositions, QComboBox.setCurrentIndex,
      QComboBox.findText, findTextFrom_map_number, QComboBox.count, List.length_map]
    by_cases h : v ∈ vals
    · have hlt := List.indexOf_lt_length.mpr h
      simp only [h, if_true, zero_add]
      rw [if_pos]
      constructor
      · exact Int.natCast_nonneg _
      · exact_mod_cast hlt
    · simp [h]
  · intro h
    have hget := List.indexOf_get? h
    simpa using hget
  · intro j hj hjv
    have hlen : j < vals.length := lt_of_lt_of_le hj List.indexOf_le_length
    have hnot := @List.not_of_lt_findIdx Int (fun x => x == v) vals j hj
    rw [List.getElem?_eq_getElem hlen] at hjv
    have hEq : vals[j] = v := Option.some.inj hjv
    rw [hEq] at hnot
    simp at hnot

/-- C3: for every 32-bit `int` `v`, the text written for `v` is parsed back by `std::stoi`
to `v` without exception, and activating that entry while `NoForward` is false makes
exactly one helper call, `LoadCameraPose(v)`. -/
theorem loadCameraCombo_entry_roundtrip (v : Int) (hv : isInt32 v)
    (panel : pqOpenVRControls F) (hNF : panel.NoForward = false) :
    stoi (toCString (QString.number v)) = .ok v
      ∧ (loadCameraCombo_activated (QString.number v) panel).thrown = none
      ∧ helperCalls (newEffects panel (loadCameraCombo_activated (QString.number v) panel).panel)
          = [.LoadCameraPose v] := by
  have hstoi : stoi (toCString (QString.number v)) = .ok v := by
    rw [toCString_number]
    unfold stoi
    rw [strtolScan_number]
    simp [hv]
  have hlen : (QString.number v).length ≠ 0 := by
    intro h
    have hnil := List.length_eq_zero.mp h
    have hscan := strtolScan_number v
    rw [hnil] at hscan
    have hnone : strtolScan [] = none := by decide
    rw [hnone] at hscan
    cases hscan
  refine ⟨hstoi, ?_, ?_⟩
  · simp [loadCameraCombo_activated, hNF, hlen, hstoi]
  · simp [loadCameraCombo_activated, hNF, hlen, hstoi, callHelper, newEffects_emit_emit,
      helperCalls]

/-- Witness for C3 at the minimum value of `int`. -/
theorem loadCameraCombo_entry_roundtrip_witness :
    isInt32 (-2147483648) ∧ samplePanel.NoForward = false
      ∧ stoi (toCString (QString.number (-2147483648))) = .ok (-2147483648)
      ∧ (loadCameraCombo_activated (QString.number (-2147483648)) samplePanel).thrown = none
      ∧ helperCalls (newEffects samplePanel
            (loadCameraCombo_activated (QString.number (-2147483648)) samplePanel).panel)
          = [.LoadCameraPose (-2147483648)] :=
  ⟨by decide, rfl, loadCameraCombo_entry_roundtrip (-2147483648) (by decide) samplePanel rfl⟩

/-! ## Frame facts for `NoForward` -/

theorem NoForward_emit (p : pqOpenVRControls F) (e : Effect F) :
    (p.emit e).NoForward = p.NoForward := rfl

theorem NoForward_scaleFactorCombo_activated (stof : List Char → Except StoError F)
    (text : QString) (p : pqOpenVRControls F) :
    (scaleFactorCombo_activated stof text p).panel.NoForward = p.NoForward := by
  unfold scaleFactorCombo_activated
  split
  · split <;> rfl
  · rfl

theorem NoForward_motionFactorCombo_activated (stof : List Char → Except StoError F)
    (text : QString) (p : pqOpenVRControls F) :
    (motionFactorCombo_activated stof text p).panel.NoForward = p.NoForward := by
  unfold motionFactorCombo_activated
  split
  · split <;> rfl
  · rfl

theorem NoForward_loadCameraCombo_activated (text : QString) (p : pqOpenVRControls F) :
    (loadCameraCombo_activated text p).panel.NoForward = p.NoForward := by
  unfold loadCameraCombo_activated
  split
  · split <;> rfl
  · rfl

theorem NoForward_saveCameraCombo_activated (text : QString) (p : pqOpenVRControls F) :
    (saveCameraCombo_activated text p).panel.NoForward = p.NoForward := by
  unfold saveCameraCombo_activated
  split
  · split <;> rfl
  · rfl

theorem NoForward_SetRightTriggerMode (text : List Char) (p : pqOpenVRControls F) :
    (SetRightTriggerMode text p).NoForward = p.NoForward := by
  unfold SetRightTriggerMode
  simp only
  split <;> rfl

theorem NoForward_GetSelectedPipelineSource (p : pqOpenVRControls F) :
    p.GetSelectedPipelineSource.2.NoForward = p.NoForward := by
  unfold GetSelectedPipelineSource
  simp only
  split <;> rfl

/-- A call other than the constructor and the three setters has one step, and the step
leaves `NoForward` as it was. -/
theorem body_frame (stof : List Char → Except StoError F) (numberD : D → QString)
    (op : Op D) (hs : op.isSetter = false) (hc : op.isConstructor = false) :
    ∃ f, op.body stof numberD = [f] ∧ ∀ p : pqOpenVRControls F, (f p).NoForward = p.NoForward := by
  cases op <;> simp only [Op.isSetter, Op.isConstructor, Bool.true_eq_false] at hs hc <;>
    refine ⟨_, rfl, fun p => ?_⟩
  case SetRightTriggerMode text => exact NoForward_SetRightTriggerMode text p
  case GetSelectedPipelineSource => exact NoForward_GetSelectedPipelineSource p
  case scaleFactorCombo_activated text => exact NoForward_scaleFactorCombo_activated stof text p
  case motionFactorCombo_activated text =>
    exact NoForward_motionFactorCombo_activated stof text p
  case loadCameraCombo_activated text => exact NoForward_loadCameraCombo_activated text p
  case saveCameraCombo_activated text => exact NoForward_saveCameraCombo_activated text p
  all_goals rfl

/-- Every call, run to its end from a panel with `NoForward` false, ends with `NoForward`
false. -/
theorem runBody_NoForward_false (stof : List Char → Except StoError F) (numberD : D → QString)
    (op : Op D) (p : pqOpenVRControls F) (hp : p.NoForward = false) :
    (runBody (op.body stof numberD) p).NoForward = false := by
  by_cases hs : op.isSetter = true
  · cases op <;> simp only [Op.isSetter, Bool.false_eq_true] at hs <;> rfl
  · by_cases hc : op.isConstructor = true
    · cases op <;> simp only [Op.isConstructor, Bool.false_eq_true] at hc
      rfl
    · obtain ⟨f, hf, hframe⟩ := body_frame stof numberD op (by simpa using hs) (by simpa using hc)
      rw [hf]
      simp only [runBody, List.foldl_cons, List.foldl_nil]
      rw [hframe, hp]

theorem run_NoForward_false (stof : List Char → Except StoError F) (numberD : D → QString)
    (ops : List (Op D)) (p : pqOpenVRControls F) (hp : p.NoForward = false) :
    (run stof numberD ops p).NoForward = false := by
  induction ops generalizing p with
  | nil => exact hp
  | cons op ops ih =>
    simp only [run, List.foldl_cons]
    exact ih _ (runBody_NoForward_false stof numberD op p hp)

/-! ## The `NoForward` flag -/

/-- C9: `NoForward` is false after `constructor` and after each of `SetCurrentPosition`,
`SetCurrentScaleFactor`, `SetCurrentMotionFactor`, for every argument and every value it
had before; hence it is false after every sequence of calls on a constructed panel. No
other call writes it: through such a call it keeps its value. Starting from false, a state
with `NoForward` true is met only inside one of the three setters, before its last
statement; and inside a setter it is true before the last statement. -/
theorem NoForward_discipline (stof : List Char → Except StoError F) (numberD : D → QString) :
    (∀ (ui : Ui) (p : pqOpenVRControls F), (constructor ui p).NoForward = false)
      ∧ (∀ (val : Int) (p : pqOpenVRControls F), (SetCurrentPosition val p).NoForward = false)
      ∧ (∀ (val : D) (p : pqOpenVRControls F),
          (SetCurrentScaleFactor numberD val p).NoForward = false)
      ∧ (∀ (val : D) (p : pqOpenVRControls F),
          (SetCurrentMotionFactor numberD val p).NoForward = false)
      ∧ (∀ (ops : List (Op D)) (ui : Ui) (p : pqOpenVRControls F),
          (run stof numberD ops (constructor ui p)).NoForward = false)
      ∧ (∀ (op : Op D) (p q : pqOpenVRControls F),
          op.isSetter = false → op.isConstructor = false →
          q ∈ statesThrough (op.body stof numberD) p → q.NoForward = p.NoForward)
      ∧ (∀ (op : Op D) (p q : pqOpenVRControls F) (i : Nat), p.NoForward = false →
          (statesThrough (op.body stof numberD) p)[i]? = some q → q.NoForward = true →
          op.isSetter = true ∧ i + 1 < (op.body stof numberD).length)
      ∧ (∀ (op : Op D) (p q : pqOpenVRControls F) (i : Nat), op.isSetter = true →
          (statesThrough (op.body stof numberD) p)[i]? = some q →
          i + 1 < (op.body stof numberD).length → q.NoForward = true) := by
  refine ⟨fun _ _ => rfl, fun _ _ => rfl, fun _ _ => rfl, fun _ _ => rfl, ?_, ?_, ?_, ?_⟩
  · intro ops ui p
    exact run_NoForward_false stof numberD ops _ rfl
  · intro op p q hs hc hq
    obtain ⟨f, hf, hframe⟩ := body_frame stof numberD op hs hc
    rw [hf] at hq
    simp only [statesThrough, List.mem_singleton] at hq
    rw [hq, hframe]
  · intro op p q i hp hq hq1
    by_cases hs : op.isSetter = true
    · refine ⟨hs, ?_⟩
      cases op <;> simp only [Op.isSetter, Bool.false_eq_true] at hs <;>
        (simp only [Op.body, SetCurrentPosition_body, SetCurrentScaleFactor_body,
            SetCurrentMotionFactor_body, statesThrough, List.length_cons, List.length_nil] at hq ⊢
         match i, hq with
         | 0, _ => omega
         | 1, _ => omega
         | 2, hq =>
           simp only [List.getElem?_cons_succ, List.getElem?_cons_zero, Option.some.injEq] at hq
           rw [← hq] at hq1
           cases hq1
         | i + 3, hq => simp at hq)
    · by_cases hc : op.isConstructor = true
      · cases op <;> simp only [Op.isConstructor, Bool.false_eq_true] at hc
        simp only [Op.body, statesThrough] at hq
        match i, hq with
        | 0, hq =>
          simp only [List.getElem?_cons_zero, Option.some.injEq] at hq
          rw [← hq] at hq1
          cases hq1
        | i + 1, hq => simp at hq
      · obtain ⟨f, hf, hframe⟩ :=
          body_frame stof numberD op (by simpa using hs) (by simpa using hc)
        rw [hf] at hq
        simp only [statesThrough] at hq
        match i, hq with
        | 0, hq =>
          simp only [List.getElem?_cons_zero, Option.some.injEq] at hq
          rw [← hq, hframe, hp] at hq1
          cases hq1
        | i + 1, hq => simp at hq
  · intro op p q i hs hq hi
    cases op <;> simp only [Op.isSetter, Bool.false_eq_true] at hs <;>
      (simp only [Op.body, SetCurrentPosition_body, SetCurrentScaleFactor_body,
          SetCurrentMotionFactor_body, statesThrough, List.length_cons, List.length_nil] at hq hi
       match i, hq, hi with
       | 0, hq, _ =>
         simp only [List.getElem?_cons_zero, Option.some.injEq] at hq
         rw [← hq]
       | 1, hq, _ =>
         simp only [List.getElem?_cons_succ, List.getElem?_cons_zero, Option.some.injEq] at hq
         rw [← hq]
       | i + 2, _, hi => omega)

/-! ## The pipeline browser selection -/

/-- C4: `GetSelectedPipelineSource` returns null without any query (the panel is left as it
was) when the current selection index is invalid; for a valid index it queries the
pipeline model at the mapped index and returns the item found there if it is a pipeline
source, and null for an item of another kind (or no item). -/
theorem GetSelectedPipelineSource_result (self : pqOpenVRControls F) :
    (self.Internals.pipelineBrowser.currentIndex.isValid = false →
        self.GetSelectedPipelineSource = (none, self))
      ∧ (self.Internals.pipelineBrowser.currentIndex.isValid = true →
          self.GetSelectedPipelineSource.1
              = (match (self.Internals.pipelineBrowser.getPipelineModel
                    self.Internals.pipelineBrowser.currentIndex).getItemFor
                  (self.Internals.pipelineBrowser.pipelineModelIndex
                    self.Internals.pipelineBrowser.currentIndex) with
                | some item => if item.isPipelineSource = true then some item else none
                | none => none)
            ∧ newEffects self self.GetSelectedPipelineSource.2
              = [.getPipelineModel self.Internals.pipelineBrowser.currentIndex,
                 .pipelineModelIndex self.Internals.pipelineBrowser.currentIndex,
                 .getItemFor (self.Internals.pipelineBrowser.pipelineModelIndex
                    self.Internals.pipelineBrowser.currentIndex)]) := by
  constructor
  · intro h
    simp [GetSelectedPipelineSource, h]
  · intro h
    simp only [GetSelectedPipelineSource, h, Bool.not_true, Bool.false_eq_true, if_false,
      newEffects_emit_emit_emit, and_true]
    cases (self.Internals.pipelineBrowser.getPipelineModel
        self.Internals.pipelineBrowser.currentIndex).getItemFor
      (self.Internals.pipelineBrowser.pipelineModelIndex
        self.Internals.pipelineBrowser.currentIndex) <;>
      simp [qobject_cast_pqPipelineSource]

/-! ## The slots of the combo boxes and check boxes -/

/-- C8, as stated, fails: with `NoForward` false and the non-empty text `abc` the
load-camera slot makes no helper call, because `std::stoi` throws. -/
theorem activated_helper_iff_guard_counterexample :
    ¬ (helperCalls (newEffects samplePanel
            (loadCameraCombo_activated "abc".toList samplePanel).panel) ≠ []
        ↔ (samplePanel.NoForward = false ∧ "abc".toList ≠ [])) := by
  decide

/-- C8, amended: each of the scale-factor, motion-factor and load-camera slots calls its
helper operation, with the value parsed from the text, if and only if `NoForward` is
false, the text is not empty and the parser converts the text; with `NoForward` true or
an empty text nothing is parsed and no helper operation is called; when the parser throws
no helper operation is called. -/
theorem activated_guarded_forwarding (stof : List Char → Except StoError F) :
    GuardedForwarding (scaleFactorCombo_activated stof) stof .stof .SetScaleFactor
      ∧ GuardedForwarding (motionFactorCombo_activated stof) stof .stof .SetMotionFactor
      ∧ GuardedForwarding (loadCameraCombo_activated (F := F)) stoi .stoi .LoadCameraPose := by
  refine ⟨?_, ?_, ?_⟩
  · intro text p
    cases hNF : p.NoForward <;> cases text with
    | nil => simp [scaleFactorCombo_activated, hNF, newEffects_self, helperCalls]
    | cons c cs =>
      cases hp : stof (toCString (c :: cs)) <;>
        simp [scaleFactorCombo_activated, hNF, newEffects_self, newEffects_emit,
          newEffects_emit_emit, helperCalls, hp, callHelper]
  · intro text p
    cases hNF : p.NoForward <;> cases text with
    | nil => simp [motionFactorCombo_activated, hNF, newEffects_self, helperCalls]
    | cons c cs =>
      cases hp : stof (toCString (c :: cs)) <;>
        simp [motionFactorCombo_activated, hNF, newEffects_self, newEffects_emit,
          newEffects_emit_emit, helperCalls, hp, callHelper]
  · intro text p
    cases hNF : p.NoForward <;> cases text with
    | nil => simp [loadCameraCombo_activated, hNF, newEffects_self, helperCalls]
    | cons c cs =>
      cases hp : stoi (toCString (c :: cs)) <;>
        simp [loadCameraCombo_activated, hNF, newEffects_self, newEffects_emit,
          newEffects_emit_emit, helperCalls, hp, callHelper]

/-- C10: each of the controller-labels, navigation-panel, interactive-ray and show-floor
slots makes one helper call whose argument is the boolean `state == Qt::Checked`: true
for `Checked`, false for `Unchecked` and for `PartiallyChecked`. -/
theorem stateChanged_forwards_checked (state : Int) (p : pqOpenVRControls F) :
    newEffects p (controllerLabels_stateChanged state p)
        = [.helper (.SetDrawControls (decide (state = Qt.Checked)))]
      ∧ newEffects p (navigationPanel_stateChanged state p)
        = [.helper (.SetShowNavigationPanel (decide (state = Qt.Checked)))]
      ∧ newEffects p (interactiveRay_stateChanged state p)
        = [.helper (.SetHoverPick (decide (state = Qt.Checked)))]
      ∧ newEffects p (showFloorCheckbox_stateChanged state p)
        = [.helper (.SetShowFloor (decide (state = Qt.Checked)))]
      ∧ decide (Qt.Checked = Qt.Checked) = true
      ∧ decide (Qt.Unchecked = Qt.Checked) = false
      ∧ decide (Qt.PartiallyChecked = Qt.Checked) = false := by
  have hb : (state == Qt.Checked) = decide (state = Qt.Checked) := by
    by_cases h : state = Qt.Checked <;> simp [h]
  simp only [controllerLabels_stateChanged, navigationPanel_stateChanged,
    interactiveRay_stateChanged, showFloorCheckbox_stateChanged, callHelper, newEffects_emit,
    hb, true_and]
  decide

/-! ## The crop plane controls -/

/-- C11: a click on the add-crop button calls `AddACropPlane(nullptr, nullptr)`, a click on
the add-thick-crop button calls `AddAThickCrop(nullptr)`, a click on the remove-crops
button calls `RemoveAllCropPlanes`, and a state change of the crop-snapping check box
calls `SetCropSnapping` with the check state itself: 0 for `Unchecked`, 1 for
`PartiallyChecked`, 2 for `Checked`. Each slot makes this one call and nothing else. -/
theorem crop_controls_forwarding (state : Int) (p : pqOpenVRControls F) :
    newEffects p (addCropButton_clicked p) = [.helper (.AddACropPlane none none)]
      ∧ newEffects p (addThickCropButton_clicked p) = [.helper (.AddAThickCrop none)]
      ∧ newEffects p (removeCropsButton_clicked p) = [.helper .RemoveAllCropPlanes]
      ∧ newEffects p (cropSnapping_stateChanged state p) = [.helper (.SetCropSnapping state)]
      ∧ newEffects p (cropSnapping_stateChanged Qt.Unchecked p)
          = [.helper (.SetCropSnapping 0)]
      ∧ newEffects p (cropSnapping_stateChanged Qt.PartiallyChecked p)
          = [.helper (.SetCropSnapping 1)]
      ∧ newEffects p (cropSnapping_stateChanged Qt.Checked p)
          = [.helper (.SetCropSnapping 2)] := by
  simp only [addCropButton_clicked, addThickCropButton_clicked, removeCropsButton_clicked,
    cropSnapping_stateChanged, callHelper, newEffects_emit, true_and]
  exact ⟨rfl, rfl, rfl⟩

end pqOpenVRControls

/-! ## The data time-step behaviour -/

namespace pqDataTimeStepBehavior

/-- C5: after `onReaderCreated` for a reader with more than one timestep, the application
time is at least the time of the last timestep. -/
theorem onReaderCreated_time_ge_last {T : Type} [LinearOrder T] (timesteps : List T)
    (applicationTime : T) (h : 1 < timesteps.length) :
    ∃ last, timesteps.getLast? = some last
      ∧ last ≤ onReaderCreated timesteps applicationTime := by
  cases hl : timesteps.getLast? with
  | none =>
    rw [List.getLast?_eq_none_iff] at hl
    rw [hl] at h
    simp at h
  | some last =>
    refine ⟨last, rfl, ?_⟩
    simp only [onReaderCreated, h, if_true, hl]
    split
    · exact le_refl _
    · rename_i hlt
      exact not_lt.mp hlt

/-- Witness for C5: three timesteps ending at 10 while the application time is 3. -/
theorem onReaderCreated_time_ge_last_witness :
    1 < ([0, 5, 10] : List Int).length
      ∧ ∃ last, ([0, 5, 10] : List Int).getLast? = some last
          ∧ last ≤ onReaderCreated ([0, 5, 10] : List Int) 3 :=
  ⟨by decide, onReaderCreated_time_ge_last [0, 5, 10] 3 (by decide)⟩

end pqDataTimeStepBehavior

/-! ## The irregular volume subset -/

namespace IIrregular_volume_subset

variable {R : Type}

theorem runCalls_no_generate (calls : List (Call R)) (self : Instance R)
    (h : ∀ c ∈ calls, c.isGenerate = false) : runCalls calls self = self := by
  induction calls generalizing self with
  | nil => rfl
  | cons c cs ih =>
    have hc := h c (List.mem_cons_self _ _)
    have hstep : step self c = self := by
      cases c <;> simp_all [Call.isGenerate, step]
    simp only [runCalls, List.foldl_cons, hstep]
    exact ih self (fun c hc => h c (List.mem_cons_of_mem _ hc))

theorem runCalls_append (xs ys : List (Call R)) (self : Instance R) :
    runCalls (xs ++ ys) self = runCalls ys (runCalls xs self) := by
  simp [runCalls, List.foldl_append]

theorem lastSuccessful_append_singleton (xs : List (Call R)) (c : Call R) :
    lastSuccessful (xs ++ [c])
      = match c with
        | .generate_mesh_storage mesh_params (some storage) => some (mesh_params, storage)
        | _ => lastSuccessful xs := by
  cases c with
  | generate_mesh_storage mp a =>
    cases a with
    | none =>
      induction xs with
      | nil => rfl
      | cons x xs ih =>
        simp only [List.cons_append, lastSuccessful, List.append_eq] at ih ⊢
        rw [ih]
    | some st =>
      induction xs with
      | nil => rfl
      | cons x xs ih =>
        simp only [List.cons_append, lastSuccessful, List.append_eq] at ih ⊢
        rw [ih]
  | get_mesh_parameters =>
    induction xs with
    | nil => rfl
    | cons x xs ih =>
      simp only [List.cons_append, lastSuccessful, List.append_eq] at ih ⊢
      rw [ih]
  | get_mesh =>
    induction xs with
    | nil => rfl
    | cons x xs ih =>
      simp only [List.cons_append, lastSuccessful, List.append_eq] at ih ⊢
      rw [ih]

/-- What an instance reached from a fresh one reports and holds valid, in terms of the
last call of `generate_mesh_storage` that returned true. -/
theorem runCalls_create [Zero R] (calls : List (Call R)) :
    runCalls calls (create : Instance R)
      = match lastSuccessful calls with
        | some (mesh_params, storage) =>
          { mesh_parameters := mesh_params, mesh_storage := storage,
            valid_storages := [storage] }
        | none => create := by
  induction calls using List.reverseRecOn with
  | nil => rfl
  | append_singleton xs c ih =>
    rw [runCalls_append, ih, lastSuccessful_append_singleton]
    cases c with
    | generate_mesh_storage mp a =>
      cases a <;> simp [runCalls, step, IIrregular_volume_subset.generate_mesh_storage]
    | get_mesh_parameters => simp [runCalls, step]
    | get_mesh => simp [runCalls, step]

/-- C6: as long as `generate_mesh_storage` has not been called, `get_mesh_parameters`
reports an empty mesh (the five sizes and the maximal edge length are 0) and `get_mesh`
reports a storage whose five array pointers are 0. -/
theorem getters_before_generate [Zero R] (calls : List (Call R))
    (h : ∀ c ∈ calls, c.isGenerate = false) :
    get_mesh_parameters (runCalls calls (create : Instance R))
        = { nb_vertices := 0, nb_face_vtx_indices := 0, nb_faces := 0,
            nb_cell_face_indices := 0, nb_cells := 0, global_max_edge_length := 0 }
      ∧ get_mesh (runCalls calls (create : Instance R))
        = { vertices := 0, face_vtx_indices := 0, faces := 0, cell_face_indices := 0,
            cells := 0 } := by
  rw [runCalls_no_generate calls _ h]
  exact ⟨rfl, rfl⟩

/-- Witness for C6: a fresh instance queried twice. -/
theorem getters_before_generate_witness :
    (∀ c ∈ ([.get_mesh, .get_mesh_parameters] : List (Call Int)), c.isGenerate = false)
      ∧ get_mesh_parameters
          (runCalls ([.get_mesh, .get_mesh_parameters] : List (Call Int)) create)
        = { nb_vertices := 0, nb_face_vtx_indices := 0, nb_faces := 0,
            nb_cell_face_indices := 0, nb_cells := 0, global_max_edge_length := 0 }
      ∧ get_mesh (runCalls ([.get_mesh, .get_mesh_parameters] : List (Call Int)) create)
        = { vertices := 0, face_vtx_indices := 0, faces := 0, cell_face_indices := 0,
            cells := 0 } :=
  ⟨by decide, getters_before_generate _ (by decide)⟩

/-- C7: a call of `generate_mesh_storage` that returns true hands out a storage which is
then the only valid one (what was valid before is no longer), and the getters report that
storage and the passed parameters. After any sequence of calls on a fresh instance at most
one storage is valid, and `get_mesh_parameters` reports the parameters of the last call
that returned true (those of the empty mesh when there was none). -/
theorem single_valid_storage [Zero R] :
    (∀ (mesh_params : Mesh_parameters R) (allocated : Option Mesh_storage)
        (self : Instance R),
        (generate_mesh_storage mesh_params allocated self).1 = true →
        ∃ storage, (generate_mesh_storage mesh_params allocated self).2.1 = some storage
          ∧ (generate_mesh_storage mesh_params allocated self).2.2.valid_storages = [storage]
          ∧ get_mesh (generate_mesh_storage mesh_params allocated self).2.2 = storage
          ∧ get_mesh_parameters (generate_mesh_storage mesh_params allocated self).2.2
              = mesh_params)
      ∧ (∀ calls : List (Call R),
          (runCalls calls (create : Instance R)).valid_storages.length ≤ 1
          ∧ (∀ storage ∈ (runCalls calls (create : Instance R)).valid_storages,
              get_mesh (runCalls calls (create : Instance R)) = storage)
          ∧ get_mesh_parameters (runCalls calls (create : Instance R))
              = match lastSuccessful calls with
                | some (mesh_params, _) => mesh_params
                | none => empty_parameters) := by
  constructor
  · intro mesh_params allocated self h
    cases allocated with
    | none => simp [generate_mesh_storage] at h
    | some storage => exact ⟨storage, rfl, rfl, rfl, rfl⟩
  · intro calls
    rw [runCalls_create]
    cases lastSuccessful calls with
    | none => simp [create, get_mesh_parameters]
    | some r => simp [get_mesh, get_mesh_parameters]

end IIrregular_volume_subset

/-! ## The render view proxy -/

namespace vtkPVRenderViewProxy

/-- C12, as stated, fails: the operations to be forwarded are not two in number. -/
theorem forwardedOperations_two_counterexample : ¬ (forwardedOperations.length = 2) := by
  decide

/-- C12, amended: the public interface of `vtkPVRenderViewProxy` consists of exactly three
operations to be forwarded by a subclass, `EventuallyRender`, `GetRenderWindow` and
`Render`, and every member outside this list is a constructor, the destructor or the
assignment, none of them public. -/
theorem forwardedOperations_three :
    forwardedOperations = [.EventuallyRender, .GetRenderWindow, .Render]
      ∧ forwardedOperations.length = 3
      ∧ forwardedOperations.Nodup
      ∧ (∀ m : Member, m ∉ forwardedOperations →
          m.access ≠ .publicSection ∧ m.isPureVirtual = false)
      ∧ (∀ m : Member, m ∈ members) := by
  refine ⟨by decide, by decide, by decide, ?_, ?_⟩
  · intro m
    cases m <;> decide
  · intro m
    cases m <;> decide

end vtkPVRenderViewProxy

end ParaView
